import Mathlib

/-!
Shallow embedding of the Valifi Kingdom persistent supervisor
(`src/deployment/ultimate_persistent_system.py`, class `UltimatePersistentSystem`).

The Python object owns three pieces of mutable state that the claims are about:
`self.processes : Dict[str, subprocess.Popen]` (the process handles),
`self.restart_counts : Dict[str, int]`, and `self.running : bool`.
We embed them, together with a model of the OS process table (pid ↦ process
state), as an explicit `SystemState` threaded through pure functions, one per
Python method.  External effects (HTTP probe responses, `subprocess.Popen`
outcomes) are passed in as oracle arguments, one per call site.
-/

set_option linter.unusedVariables false

namespace Valifi

/-- Outcome of one `requests.get` call: a response with a status code, a
connection-level failure (refused/reset), or an exceeded timeout.  The latter
two both raise in Python and are handled by the same `except` clauses. -/
inductive HttpResult where
  | success (status : Nat)
  | connRefused
  | timedOut
deriving DecidableEq

/-- Whether the `requests.get` call raised (connection error or timeout). -/
def HttpResult.raises : HttpResult → Bool
  | .success _ => false
  | .connRefused => true
  | .timedOut => true

/-- Responses the network would give to the two probe URLs used by
`_check_service_health`: `http://localhost:PORT/health` and
`http://localhost:PORT/`. -/
structure ProbeEnv where
  healthResp : HttpResult
  rootResp : HttpResult
deriving DecidableEq

/-- State of one OS process: whether it is alive (`Popen.poll() is None`) and
whether it ignores the graceful-termination signal sent by
`Popen.terminate()`. `Popen.kill()` always ends the process. -/
structure ProcState where
  alive : Bool
  ignoresTerm : Bool
deriving DecidableEq

/-- One entry of `KINGDOM_CONFIG['services']`: the fields consulted by the
supervisor.  `max_restarts` is `none` for `float('inf')` (unbounded) and
`some m` for a finite ceiling. -/
structure ServiceConfig where
  port : Nat
  critical : Bool
  restart_on_failure : Bool
  max_restarts : Option Nat
deriving DecidableEq

/-- The supervisor's mutable state plus the modelled OS process table. -/
structure SystemState where
  osProcs : List (Nat × ProcState)
  processes : List (String × Nat)
  restart_counts : List (String × Nat)
  running : Bool
deriving DecidableEq

/-- Association-list lookup, modelling Python `dict` access. -/
def lookupKey {α β : Type} [DecidableEq α] (k : α) : List (α × β) → Option β
  | [] => none
  | (a, b) :: rest => if a = k then some b else lookupKey k rest

/-- Association-list overwrite, modelling Python `dict` assignment (dict keys
are unique, so the stale binding is dropped). -/
def insertKey {α β : Type} [DecidableEq α] (k : α) (v : β) (l : List (α × β)) :
    List (α × β) :=
  (k, v) :: l.filter (fun p => decide (¬ p.1 = k))

/-- Association-list deletion, modelling Python `del dict[k]`. -/
def eraseKey {α β : Type} [DecidableEq α] (k : α) (l : List (α × β)) :
    List (α × β) :=
  l.filter (fun p => decide (¬ p.1 = k))

/-- Liveness of a pid in the modelled OS table: `poll() is None`. An unknown
pid is not alive. -/
def isAlive (st : SystemState) (pid : Nat) : Bool :=
  match lookupKey pid st.osProcs with
  | some p => p.alive
  | none => false

/-- Per-process effect of `Popen.terminate()`: the targeted process dies
unless it ignores the graceful signal; other processes are untouched. -/
def termEffect (pid k : Nat) (p : ProcState) : ProcState :=
  if k = pid then (if p.ignoresTerm then p else { p with alive := false })
  else p

/-- Per-process effect of `Popen.kill()`: the targeted process dies; other
processes are untouched. -/
def killEffect (pid k : Nat) (p : ProcState) : ProcState :=
  if k = pid then { p with alive := false } else p

/-- Effect of `Popen.terminate()` on the OS table. -/
def osTerminate (st : SystemState) (pid : Nat) : SystemState :=
  { st with osProcs := st.osProcs.map (fun q => (q.1, termEffect pid q.1 q.2)) }

/-- Effect of `Popen.kill()` on the OS table. -/
def osKill (st : SystemState) (pid : Nat) : SystemState :=
  { st with osProcs := st.osProcs.map (fun q => (q.1, killEffect pid q.1 q.2)) }

/-- The dictionary returned by `_check_service_health` (lines 158-193). -/
structure ServiceHealth where
  healthy : Bool
  running : Bool
  responding : Bool
  restart_count : Nat
  pid : Option Nat
deriving DecidableEq

/-- The health dict built by `_check_service_health` before the HTTP probes
(lines 160-173): `healthy`/`responding` start false, `restart_count` is read
from `self.restart_counts`, and `running`/`pid` are filled in when a stored
handle `poll()`s as alive. -/
def baseHealth (st : SystemState) (service_name : String) : ServiceHealth :=
  let h0 : ServiceHealth :=
    { healthy := false, running := false, responding := false,
      restart_count := (lookupKey service_name st.restart_counts).getD 0,
      pid := none }
  match lookupKey service_name st.processes with
  | some pid =>
      if isAlive st pid then { h0 with running := true, pid := some pid }
      else h0
  | none => h0

/-- Embedding of `_check_service_health` (lines 158-193).  After `baseHealth`,
`GET /health` is tried: status 200 sets `healthy`; if (and only if) that call
raises, `GET /` is tried and status 200 or 404 sets `healthy`; any other
outcome leaves `healthy` false. -/
def check_service_health (st : SystemState) (service_name : String)
    (cfg : ServiceConfig) (env : ProbeEnv) : ServiceHealth :=
  let h1 := baseHealth st service_name
  match env.healthResp with
  | .success s =>
      if s = 200 then { h1 with responding := true, healthy := true } else h1
  | _ =>
      match env.rootResp with
      | .success s =>
          if s = 200 ∨ s = 404 then
            { h1 with responding := true, healthy := true }
          else h1
      | _ => h1

/-- The probe classification actually implemented, as a function of the two
HTTP responses alone: 200 on `/health`, or — when the `/health` request
raises — 200 or 404 on `/`. -/
def classifyProbe (env : ProbeEnv) : Bool :=
  match env.healthResp with
  | .success s => decide (s = 200)
  | _ =>
      match env.rootResp with
      | .success s => decide (s = 200 ∨ s = 404)
      | _ => false

/-- Outcome of the `subprocess.Popen` call made by `start_service`: either the
OS refuses to create the process (`Popen` raises) or a process is created,
with its liveness at the end of the 3-second verification wait and its
reaction to `terminate()`. -/
inductive LaunchOutcome where
  | popenFails
  | launched (pid : Nat) (aliveAfterWait : Bool) (ignoresTerm : Bool)
deriving DecidableEq

/-- Embedding of `start_service` (lines 195-229).  On a successful `Popen` the
handle is stored (line 215) BEFORE the 3-second wait and the `poll()` check;
the returned bool is True iff `poll()` is still None after the wait.  If
`Popen` raises, the state is untouched and False is returned. -/
def start_service (st : SystemState) (service_name : String)
    (lo : LaunchOutcome) : SystemState × Bool :=
  match lo with
  | .popenFails => (st, false)
  | .launched pid aliveAfterWait ignT =>
      let st1 : SystemState :=
        { st with
          osProcs := insertKey pid ⟨aliveAfterWait, ignT⟩ st.osProcs,
          processes := insertKey service_name pid st.processes }
      (st1, aliveAfterWait)

/-- Embedding of `stop_service` (lines 231-252).  No handle: success, no-op.
Otherwise `terminate()`, grace wait, `kill()` if still alive, then the handle
is deleted and True returned.  `restart_counts` is never touched. -/
def stop_service (st : SystemState) (service_name : String) :
    SystemState × Bool :=
  match lookupKey service_name st.processes with
  | none => (st, true)
  | some pid =>
      let st1 : SystemState :=
        if isAlive st pid then
          let st2 := osTerminate st pid
          if isAlive st2 pid then osKill st2 pid else st2
        else st
      ({ st1 with processes := eraseKey service_name st1.processes }, true)

/-- Embedding of `restart_service` (lines 254-275): stop, increment
`restart_counts` by exactly one, start; the incremented count is kept whether
or not the start succeeds. -/
def restart_service (st : SystemState) (service_name : String)
    (lo : LaunchOutcome) : SystemState × Bool :=
  let st1 := (stop_service st service_name).1
  let newCounts :=
    insertKey service_name
      ((lookupKey service_name st1.restart_counts).getD 0 + 1)
      st1.restart_counts
  let st2 : SystemState := { st1 with restart_counts := newCounts }
  start_service st2 service_name lo

/-- The restart count the supervisor reports for a service
(`self.restart_counts.get(name, 0)`). -/
def getCount (st : SystemState) (service_name : String) : Nat :=
  (lookupKey service_name st.restart_counts).getD 0

/-- Reaction of the health-check cycle (lines 411-416) to one service's
health dict, computed from the pre-cycle state `st`: when not healthy and the
config has `restart_on_failure`, restart — the `critical` flag and
`max_restarts` are not consulted here. -/
def health_cycle_step (st : SystemState) (env : String → ProbeEnv)
    (lo : String → LaunchOutcome) (acc : SystemState)
    (p : String × ServiceConfig) : SystemState :=
  let h := check_service_health st p.1 p.2 (env p.1)
  if h.healthy then acc
  else if p.2.restart_on_failure then (restart_service acc p.1 (lo p.1)).1
  else acc

/-- Embedding of the health-check cycle of `run_persistent_loop`
(lines 407-418): `check_system_health` probes every configured service against
the pre-cycle state `st`, then reacts service by service. -/
def health_cycle (st : SystemState) (services : List (String × ServiceConfig))
    (env : String → ProbeEnv) (lo : String → LaunchOutcome) : SystemState :=
  services.foldl (health_cycle_step st env lo) st

/-- Reaction of `auto_patch_system`'s first loop (lines 284-291) to one
configured service: when it has `restart_on_failure`, its health is re-checked
against the current state and it is restarted when unhealthy AND `critical`. -/
def auto_patch_step (env : String → ProbeEnv) (lo : String → LaunchOutcome)
    (acc : SystemState) (p : String × ServiceConfig) : SystemState :=
  if p.2.restart_on_failure then
    let h := check_service_health acc p.1 p.2 (env p.1)
    if !h.healthy && p.2.critical then (restart_service acc p.1 (lo p.1)).1
    else acc
  else acc

/-- Embedding of `auto_patch_system` (lines 277-298, the service part): the
restart loop over configured services, then the sweep (lines 294-298) deleting
every stored handle whose process `poll()`s as exited. -/
def auto_patch_system (st : SystemState)
    (services : List (String × ServiceConfig))
    (env : String → ProbeEnv) (lo : String → LaunchOutcome) : SystemState :=
  let st1 := services.foldl (auto_patch_step env lo) st
  { st1 with processes := st1.processes.filter (fun q => isAlive st1 q.2) }

/-- Embedding of the shutdown sequence of `run_persistent_loop`
(lines 444-451): `stop_service` on every key of `self.processes`. -/
def shutdown_all (st : SystemState) : SystemState :=
  (st.processes.map Prod.fst).foldl (fun acc n => (stop_service acc n).1) st

/-- What one iteration of the persistent loop's `try` block can observe:
normal completion, a `KeyboardInterrupt`, or any other caught exception
(lines 404-442). -/
inductive TickOutcome where
  | ok
  | keyboardInterrupt
  | exc
deriving DecidableEq

/-- One iteration of `while self.running` (lines 404-442) acting on the
`running` flag.  A tick event pairs the body's outcome with whether a
SIGINT/SIGTERM arrived during it (the signal handler, lines 124-127, sets
`self.running = False`).  A caught exception leaves `running` untouched. -/
def tick_step (r : Bool) (e : TickOutcome × Bool) : Bool :=
  if r then
    if e.2 then false
    else
      match e.1 with
      | .keyboardInterrupt => false
      | .ok => true
      | .exc => true
  else false

/-- The persistent loop consuming a finite trace of tick events: the value of
`self.running` after them. -/
def run_loop (r : Bool) (evs : List (TickOutcome × Bool)) : Bool :=
  evs.foldl tick_step r

/-- A fresh supervisor state: nothing launched, no restarts recorded. -/
def st0 : SystemState := ⟨[], [], [], true⟩

/-- A non-critical service that asks for restart on failure, with a restart
ceiling of 0. -/
def cfgNonCritical : ServiceConfig := ⟨8005, false, true, some 0⟩

/-- A critical service with a finite restart ceiling of 2. -/
def cfgBeta : ServiceConfig := ⟨8002, true, true, some 2⟩

/-- A critical service with unbounded restarts, as in `KINGDOM_CONFIG`. -/
def cfgGamma : ServiceConfig := ⟨8003, true, true, none⟩

/-- Probe oracle: every HTTP request has its connection refused. -/
def envDown : String → ProbeEnv := fun _ => ⟨.connRefused, .connRefused⟩

/-- Probe oracle: the service answers 404 on both probe URLs (listening, but
no such route). -/
def env404 : String → ProbeEnv := fun _ => ⟨.success 404, .success 404⟩

/-- Launch oracle: `Popen` succeeds and the process is still alive after the
3-second verification wait. -/
def loOk : String → LaunchOutcome := fun _ => .launched 42 true false

/-- A state in which service beta has already been restarted twice — its
configured ceiling in `cfgBeta`. -/
def stBeta : SystemState := ⟨[], [], [("beta", 2)], true⟩

/-- A state with one live managed process. -/
def stLive : SystemState := ⟨[(5, ⟨true, false⟩)], [("web", 5)], [], true⟩

/-- A state with two live managed processes, one of which ignores the
graceful-termination signal. -/
def stTwo : SystemState :=
  ⟨[(7, ⟨true, true⟩), (9, ⟨true, false⟩)], [("a", 7), ("b", 9)], [], true⟩

/-- Lookup after an overwrite of the same key. -/
theorem lookupKey_insertKey_self {α β : Type} [DecidableEq α] (k : α) (v : β)
    (l : List (α × β)) : lookupKey k (insertKey k v l) = some v := by
  simp [insertKey, lookupKey]

/-- Dropping the bindings of a different key does not change a lookup. -/
theorem lookupKey_filter_ne {α β : Type} [DecidableEq α] (k m : α)
    (l : List (α × β)) (h : ¬ m = k) :
    lookupKey m (l.filter (fun p => decide (¬ p.1 = k))) = lookupKey m l := by
  induction l with
  | nil => rfl
  | cons a rest ih =>
    obtain ⟨a1, a2⟩ := a
    rw [List.filter_cons]
    by_cases ha : a1 = k
    · have hne : ¬ a1 = m := fun hm => h (hm.symm.trans ha)
      have hd : decide (¬ a1 = k) = false := by simp [ha]
      rw [hd]
      show lookupKey m (rest.filter (fun p => decide (¬ p.1 = k))) =
        lookupKey m ((a1, a2) :: rest)
      rw [ih]
      show lookupKey m rest = if a1 = m then some a2 else lookupKey m rest
      rw [if_neg hne]
    · have hd : decide (¬ a1 = k) = true := by simp [ha]
      rw [hd]
      show lookupKey m ((a1, a2) :: rest.filter (fun p => decide (¬ p.1 = k))) =
        lookupKey m ((a1, a2) :: rest)
      show (if a1 = m then some a2
          else lookupKey m (rest.filter (fun p => decide (¬ p.1 = k)))) =
        if a1 = m then some a2 else lookupKey m rest
      rw [ih]

/-- Lookup of a different key after an overwrite. -/
theorem lookupKey_insertKey_ne {α β : Type} [DecidableEq α] {k m : α} (v : β)
    (l : List (α × β)) (h : ¬ m = k) :
    lookupKey m (insertKey k v l) = lookupKey m l := by
  have hk : ¬ k = m := fun hkm => h hkm.symm
  simp only [insertKey, lookupKey, hk, if_false]
  exact lookupKey_filter_ne k m l h

/-- Lookup of a deleted key. -/
theorem lookupKey_eraseKey_self {α β : Type} [DecidableEq α] (k : α)
    (l : List (α × β)) : lookupKey k (eraseKey k l) = none := by
  induction l with
  | nil => rfl
  | cons a rest ih =>
    obtain ⟨a1, a2⟩ := a
    by_cases ha : a1 = k <;> simp [eraseKey, List.filter_cons, ha, lookupKey, ih] <;>
      simpa [eraseKey] using ih

/-- Lookup of a different key after a deletion. -/
theorem lookupKey_eraseKey_ne {α β : Type} [DecidableEq α] {k m : α}
    (l : List (α × β)) (h : ¬ m = k) :
    lookupKey m (eraseKey k l) = lookupKey m l :=
  lookupKey_filter_ne k m l h

/-- Stopping a service never touches `restart_counts`. -/
theorem stop_service_counts (st : SystemState) (n : String) :
    ((stop_service st n).1).restart_counts = st.restart_counts := by
  unfold stop_service
  cases lookupKey n st.processes with
  | none => rfl
  | some pid =>
    cases h1 : isAlive st pid with
    | false => simp only [h1, Bool.false_eq_true, if_false]
    | true =>
      cases h2 : isAlive (osTerminate st pid) pid with
      | false =>
        simp only [h1, h2, Bool.false_eq_true, if_true, if_false]
        rfl
      | true =>
        simp only [h1, h2, if_true]
        rfl

/-- Starting a service never touches `restart_counts`. -/
theorem start_service_counts (st : SystemState) (n : String)
    (lo : LaunchOutcome) :
    ((start_service st n lo).1).restart_counts = st.restart_counts := by
  cases lo <;> rfl

/-- Each restart attempt increments the restarted service's count by exactly
one, whether or not the start succeeds. -/
theorem restart_service_getCount_self (st : SystemState) (n : String)
    (lo : LaunchOutcome) :
    getCount ((restart_service st n lo).1) n = getCount st n + 1 := by
  simp only [restart_service, getCount]
  rw [start_service_counts, lookupKey_insertKey_self, stop_service_counts]
  rfl

/-- A restart attempt leaves other services' counts unchanged. -/
theorem restart_service_getCount_ne (st : SystemState) (n : String)
    (lo : LaunchOutcome) (m : String) (h : ¬ m = n) :
    getCount ((restart_service st n lo).1) m = getCount st m := by
  simp only [restart_service, getCount]
  rw [start_service_counts, lookupKey_insertKey_ne _ _ h, stop_service_counts]

/-- Restart counts never decrease under a restart attempt. -/
theorem restart_service_getCount_mono (st : SystemState) (n : String)
    (lo : LaunchOutcome) (m : String) :
    getCount st m ≤ getCount ((restart_service st n lo).1) m := by
  by_cases h : m = n
  · subst h
    rw [restart_service_getCount_self]
    exact Nat.le_succ _
  · rw [restart_service_getCount_ne st n lo m h]

/-- Before the HTTP probes, the health dict's `healthy` field is false. -/
theorem baseHealth_healthy (st : SystemState) (n : String) :
    (baseHealth st n).healthy = false := by
  unfold baseHealth
  cases lookupKey n st.processes with
  | none => rfl
  | some pid => cases h : isAlive st pid <;> simp [h]

/-- The `healthy` field computed by `_check_service_health` is exactly the
probe classification of the two HTTP responses; the supervisor state plays no
role in it. -/
theorem check_health_healthy (st : SystemState) (n : String)
    (cfg : ServiceConfig) (env : ProbeEnv) :
    (check_service_health st n cfg env).healthy = classifyProbe env := by
  obtain ⟨hr, rr⟩ := env
  unfold check_service_health classifyProbe
  cases hr with
  | success s =>
    by_cases hs : s = 200
    · simp [hs]
    · simp [hs, baseHealth_healthy]
  | connRefused =>
    cases rr with
    | success s =>
      by_cases hs : s = 200 ∨ s = 404
      · simp [hs]
      · simp [hs, baseHealth_healthy]
    | connRefused => simp [baseHealth_healthy]
    | timedOut => simp [baseHealth_healthy]
  | timedOut =>
    cases rr with
    | success s =>
      by_cases hs : s = 200 ∨ s = 404
      · simp [hs]
      · simp [hs, baseHealth_healthy]
    | connRefused => simp [baseHealth_healthy]
    | timedOut => simp [baseHealth_healthy]

/-- What one health-check cycle does to the restart count of a single
configured service: plus one exactly when the probe says unhealthy and the
config says `restart_on_failure` — independently of `critical` and
`max_restarts`. -/
theorem health_cycle_single_count (st : SystemState) (n : String)
    (cfg : ServiceConfig) (env : String → ProbeEnv)
    (lo : String → LaunchOutcome) :
    getCount (health_cycle st [(n, cfg)] env lo) n =
      (if cfg.restart_on_failure && !(classifyProbe (env n)) then
        getCount st n + 1
      else getCount st n) := by
  simp only [health_cycle, List.foldl_cons, List.foldl_nil, health_cycle_step]
  rw [check_health_healthy]
  cases hc : classifyProbe (env n) with
  | true => simp
  | false =>
    cases hr : cfg.restart_on_failure with
    | false => simp [hr]
    | true => simp [hr, restart_service_getCount_self]

/-- Folding a step that never decreases a service's count never decreases
that count. -/
theorem foldl_getCount_mono {γ : Type} (f : SystemState → γ → SystemState)
    (m : String) (hf : ∀ acc p, getCount acc m ≤ getCount (f acc p) m) :
    ∀ (l : List γ) (acc : SystemState),
      getCount acc m ≤ getCount (l.foldl f acc) m := by
  intro l
  induction l with
  | nil => intro acc; exact Nat.le_refl _
  | cons p rest ih =>
    intro acc
    exact Nat.le_trans (hf acc p) (ih (f acc p))

/-- One health-cycle step never decreases any restart count. -/
theorem health_cycle_step_getCount_mono (st : SystemState)
    (env : String → ProbeEnv) (lo : String → LaunchOutcome) (m : String)
    (acc : SystemState) (p : String × ServiceConfig) :
    getCount acc m ≤ getCount (health_cycle_step st env lo acc p) m := by
  unfold health_cycle_step
  cases hh : (check_service_health st p.1 p.2 (env p.1)).healthy with
  | true => simp [hh]
  | false =>
    cases hr : p.2.restart_on_failure with
    | false => simp [hh, hr]
    | true => simpa [hh, hr] using restart_service_getCount_mono acc p.1 (lo p.1) m

/-- One auto-patch step never decreases any restart count. -/
theorem auto_patch_step_getCount_mono (env : String → ProbeEnv)
    (lo : String → LaunchOutcome) (m : String)
    (acc : SystemState) (p : String × ServiceConfig) :
    getCount acc m ≤ getCount (auto_patch_step env lo acc p) m := by
  unfold auto_patch_step
  cases hr : p.2.restart_on_failure with
  | false => simp [hr]
  | true =>
    cases hc : (!(check_service_health acc p.1 p.2 (env p.1)).healthy
        && p.2.critical) with
    | false => simp [hr, hc]
    | true => simpa [hr, hc] using restart_service_getCount_mono acc p.1 (lo p.1) m

/-- Folding `stop_service` over any name list never touches the counts. -/
theorem foldl_stop_counts (names : List String) : ∀ st : SystemState,
    ((names.foldl (fun acc n => (stop_service acc n).1) st)).restart_counts =
      st.restart_counts := by
  induction names with
  | nil => intro st; rfl
  | cons n rest ih =>
    intro st
    rw [List.foldl_cons, ih, stop_service_counts]

/-- Lookup through a key-preserving entry map. -/
theorem lookupKey_map_entry {α β : Type} [DecidableEq α] (g : α → β → β)
    (l : List (α × β)) (k : α) :
    lookupKey k (l.map (fun q => (q.1, g q.1 q.2))) =
      (lookupKey k l).map (g k) := by
  induction l with
  | nil => rfl
  | cons a rest ih =>
    obtain ⟨a1, a2⟩ := a
    by_cases h : a1 = k
    · subst h; simp [lookupKey, ih]
    · simp [lookupKey, h, ih]

/-- Graceful termination never brings a process back to life. -/
theorem isAlive_osTerminate (st : SystemState) (pid q : Nat)
    (h : isAlive (osTerminate st pid) q = true) : isAlive st q = true := by
  unfold isAlive osTerminate at h
  unfold isAlive
  rw [lookupKey_map_entry] at h
  cases hl : lookupKey q st.osProcs with
  | none => rw [hl] at h; simp at h
  | some p =>
    rw [hl] at h
    simp only [Option.map_some'] at h
    show p.alive = true
    unfold termEffect at h
    by_cases hq : q = pid
    · rw [if_pos hq] at h
      cases hi : p.ignoresTerm with
      | true => rw [if_pos hi] at h; exact h
      | false =>
        rw [if_neg (by simp [hi])] at h
        simp at h
    · rw [if_neg hq] at h; exact h

/-- Force kill never brings a process back to life. -/
theorem isAlive_osKill (st : SystemState) (pid q : Nat)
    (h : isAlive (osKill st pid) q = true) : isAlive st q = true := by
  unfold isAlive osKill at h
  unfold isAlive
  rw [lookupKey_map_entry] at h
  cases hl : lookupKey q st.osProcs with
  | none => rw [hl] at h; simp at h
  | some p =>
    rw [hl] at h
    simp only [Option.map_some'] at h
    show p.alive = true
    unfold killEffect at h
    by_cases hq : q = pid
    · rw [if_pos hq] at h; simp at h
    · rw [if_neg hq] at h; exact h

/-- After `Popen.kill()`, the targeted process is not alive. -/
theorem isAlive_osKill_self (st : SystemState) (pid : Nat) :
    isAlive (osKill st pid) pid = false := by
  unfold isAlive osKill
  rw [lookupKey_map_entry]
  cases hl : lookupKey pid st.osProcs with
  | none => rfl
  | some p => simp [killEffect]

/-- A dead process stays dead across graceful termination. -/
theorem isAlive_osTerminate_false (st : SystemState) (pid q : Nat)
    (h : isAlive st q = false) : isAlive (osTerminate st pid) q = false := by
  cases hx : isAlive (osTerminate st pid) q with
  | false => rfl
  | true =>
    have := isAlive_osTerminate st pid q hx
    rw [h] at this
    exact Bool.noConfusion this

/-- A dead process stays dead across force kill. -/
theorem isAlive_osKill_false (st : SystemState) (pid q : Nat)
    (h : isAlive st q = false) : isAlive (osKill st pid) q = false := by
  cases hx : isAlive (osKill st pid) q with
  | false => rfl
  | true =>
    have := isAlive_osKill st pid q hx
    rw [h] at this
    exact Bool.noConfusion this

/-- After `stop_service` on a service with a stored handle, that handle's
process is not alive: graceful termination worked, or the force kill did. -/
theorem stop_service_dead (st : SystemState) (n : String) (pid : Nat)
    (h : lookupKey n st.processes = some pid) :
    isAlive ((stop_service st n).1) pid = false := by
  unfold stop_service
  simp only [h]
  cases h1 : isAlive st pid with
  | false =>
    simp only [h1, Bool.false_eq_true, if_false]
    exact h1
  | true =>
    cases h2 : isAlive (osTerminate st pid) pid with
    | false =>
      simp only [h1, h2, Bool.false_eq_true, if_true, if_false]
      exact h2
    | true =>
      simp only [h1, h2, if_true]
      exact isAlive_osKill_self (osTerminate st pid) pid

/-- What `stop_service` does to the handle map: deletes the stopped service's
binding, leaves everything else. -/
theorem stop_service_processes (st : SystemState) (n : String) :
    ((stop_service st n).1).processes =
      (match lookupKey n st.processes with
       | none => st.processes
       | some _ => eraseKey n st.processes) := by
  unfold stop_service
  cases hl : lookupKey n st.processes with
  | none => rfl
  | some pid =>
    cases h1 : isAlive st pid with
    | false => simp only [h1, Bool.false_eq_true, if_false]
    | true =>
      cases h2 : isAlive (osTerminate st pid) pid with
      | false =>
        simp only [h1, h2, Bool.false_eq_true, if_true, if_false]
        rfl
      | true =>
        simp only [h1, h2, if_true]
        rfl

/-- Stopping one service does not change the stored handle of another. -/
theorem stop_service_processes_ne (st : SystemState) (a m : String)
    (h : ¬ m = a) :
    lookupKey m (((stop_service st a).1).processes) =
      lookupKey m st.processes := by
  rw [stop_service_processes]
  cases hl : lookupKey a st.processes with
  | none => rfl
  | some pid => exact lookupKey_eraseKey_ne _ h

/-- A dead process stays dead across any `stop_service` call. -/
theorem stop_service_dead_stable (st : SystemState) (n : String) (q : Nat)
    (h : isAlive st q = false) :
    isAlive ((stop_service st n).1) q = false := by
  unfold stop_service
  cases hl : lookupKey n st.processes with
  | none => exact h
  | some pid =>
    cases h1 : isAlive st pid with
    | false =>
      simp only [h1, Bool.false_eq_true, if_false]
      exact h
    | true =>
      cases h2 : isAlive (osTerminate st pid) pid with
      | false =>
        simp only [h1, h2, Bool.false_eq_true, if_true, if_false]
        exact isAlive_osTerminate_false st pid q h
      | true =>
        simp only [h1, h2, if_true]
        exact isAlive_osKill_false _ pid q (isAlive_osTerminate_false st pid q h)

/-- A dead process stays dead across a whole sequence of stops. -/
theorem foldl_stop_dead_stable (names : List String) :
    ∀ (st : SystemState) (q : Nat), isAlive st q = false →
      isAlive (names.foldl (fun acc n => (stop_service acc n).1) st) q =
        false := by
  induction names with
  | nil => intro st q h; exact h
  | cons a rest ih =>
    intro st q h
    rw [List.foldl_cons]
    exact ih _ q (stop_service_dead_stable st a q h)

/-- Stopping every name in a list kills the process of every handle whose
service name is in the list. -/
theorem foldl_stop_kills (names : List String) :
    ∀ (st : SystemState) (n : String) (pid : Nat), n ∈ names →
      lookupKey n st.processes = some pid →
      isAlive (names.foldl (fun acc n => (stop_service acc n).1) st) pid =
        false := by
  induction names with
  | nil =>
    intro st n pid hmem _
    exact absurd hmem (List.not_mem_nil n)
  | cons a rest ih =>
    intro st n pid hmem hl
    rw [List.foldl_cons]
    by_cases han : n = a
    · subst han
      exact foldl_stop_dead_stable rest _ pid (stop_service_dead st n pid hl)
    · have hmem' : n ∈ rest := by
        rcases List.mem_cons.mp hmem with h | h
        · exact absurd h han
        · exact h
      have hl' : lookupKey n (((stop_service st a).1).processes) = some pid := by
        rw [stop_service_processes_ne st a n han]
        exact hl
      exact ih _ n pid hmem' hl'

/-- When a key has no binding, no entry carries it. -/
theorem lookupKey_none_not_key {α β : Type} [DecidableEq α] (k : α)
    (l : List (α × β)) (h : lookupKey k l = none) :
    ∀ q ∈ l, ¬ q.1 = k := by
  induction l with
  | nil => intro q hq; exact absurd hq (List.not_mem_nil q)
  | cons a rest ih =>
    obtain ⟨a1, a2⟩ := a
    intro q hq
    unfold lookupKey at h
    by_cases ha : a1 = k
    · rw [if_pos ha] at h
      exact Option.noConfusion h
    · rw [if_neg ha] at h
      rcases List.mem_cons.mp hq with h1 | h1
      · rw [h1]; exact ha
      · exact ih h q h1

/-- A bound key occurs among the entry keys. -/
theorem lookupKey_some_mem_keys {α β : Type} [DecidableEq α] (k : α) (v : β)
    (l : List (α × β)) (h : lookupKey k l = some v) :
    k ∈ l.map Prod.fst := by
  induction l with
  | nil => exact Option.noConfusion h
  | cons a rest ih =>
    obtain ⟨a1, a2⟩ := a
    unfold lookupKey at h
    by_cases ha : a1 = k
    · exact List.mem_cons.mpr (Or.inl ha.symm)
    · rw [if_neg ha] at h
      exact List.mem_cons_of_mem _ (ih h)

/-- Every handle surviving a `stop_service` call was already stored and does
not belong to the stopped service. -/
theorem stop_mem_processes (st : SystemState) (a : String) (q : String × Nat)
    (hq : q ∈ ((stop_service st a).1).processes) :
    q ∈ st.processes ∧ ¬ q.1 = a := by
  rw [stop_service_processes] at hq
  cases hl : lookupKey a st.processes with
  | none =>
    rw [hl] at hq
    exact ⟨hq, lookupKey_none_not_key a st.processes hl q hq⟩
  | some pid =>
    rw [hl] at hq
    have hm := List.mem_filter.mp hq
    exact ⟨hm.1, of_decide_eq_true hm.2⟩

/-- Stopping every name that occurs as a handle key empties the handle map. -/
theorem foldl_stop_processes (names : List String) :
    ∀ st : SystemState, (∀ q ∈ st.processes, q.1 ∈ names) →
      ((names.foldl (fun acc n => (stop_service acc n).1) st)).processes =
        [] := by
  induction names with
  | nil =>
    intro st h
    cases hp : st.processes with
    | nil => exact hp
    | cons q tail =>
      exact absurd (h q (by rw [hp]; exact List.mem_cons_self q tail))
        (List.not_mem_nil q.1)
  | cons a rest ih =>
    intro st h
    rw [List.foldl_cons]
    apply ih
    intro q hq
    obtain ⟨hmem, hne⟩ := stop_mem_processes st a q hq
    rcases List.mem_cons.mp (h q hmem) with h1 | h1
    · exact absurd h1 hne
    · exact h1

/-- When the loop flag ends up false, either it started false or some tick
event was a `KeyboardInterrupt` or carried a shutdown signal. -/
theorem foldl_tick_false (evs : List (TickOutcome × Bool)) : ∀ r : Bool,
    evs.foldl tick_step r = false →
    r = false ∨
      ∃ e ∈ evs, e.1 = TickOutcome.keyboardInterrupt ∨ e.2 = true := by
  induction evs with
  | nil => intro r h; exact Or.inl h
  | cons e rest ih =>
    intro r h
    rw [List.foldl_cons] at h
    rcases ih (tick_step r e) h with h1 | h2
    · cases hr : r with
      | false => exact Or.inl rfl
      | true =>
        right
        refine ⟨e, List.mem_cons_self e rest, ?_⟩
        cases he2 : e.2 with
        | true => exact Or.inr rfl
        | false =>
          cases he1 : e.1 with
          | keyboardInterrupt => exact Or.inl rfl
          | ok => simp [tick_step, hr, he2, he1] at h1
          | exc => simp [tick_step, hr, he2, he1] at h1
    · right
      obtain ⟨e', he', hp⟩ := h2
      exact ⟨e', List.mem_cons_of_mem e he', hp⟩

/-- Claim C1, counterexample: the health-check cycle of `run_persistent_loop`
restarts a NON-critical unhealthy service whose config has
`restart_on_failure` and whose finite `max_restarts` ceiling (0) is already
reached — its restart count goes from 0 to 1 — refuting both the
`critical` conjunct and the `max_restarts` conjunct of the claimed
restart rule. -/
theorem C1_counterexample :
    cfgNonCritical.critical = false ∧
    cfgNonCritical.max_restarts = some 0 ∧
    getCount st0 "svc" = 0 ∧
    getCount (health_cycle st0 [("svc", cfgNonCritical)] envDown loOk) "svc" =
      1 := by
  refine ⟨rfl, rfl, rfl, ?_⟩
  decide

/-- Claim C1 as amended: a health-check cycle attempts a restart of a probed
service if and only if its config has `restart_on_failure` AND the probe
classification is unhealthy; the `critical` flag and `max_restarts` are not
consulted (they appear nowhere in the rule). -/
theorem C1_health_cycle_restart_rule (st : SystemState)
    (env : String → ProbeEnv) (lo : String → LaunchOutcome) :
    (∀ (acc : SystemState) (p : String × ServiceConfig),
      health_cycle_step st env lo acc p =
        (if !(classifyProbe (env p.1)) && p.2.restart_on_failure then
          (restart_service acc p.1 (lo p.1)).1
        else acc)) ∧
    (∀ (n : String) (cfg : ServiceConfig),
      getCount (health_cycle st [(n, cfg)] env lo) n =
        (if cfg.restart_on_failure && !(classifyProbe (env n)) then
          getCount st n + 1
        else getCount st n)) := by
  constructor
  · intro acc p
    unfold health_cycle_step
    simp only [check_health_healthy]
    cases hc : classifyProbe (env p.1) with
    | true => simp
    | false =>
      cases hr : p.2.restart_on_failure with
      | false => simp [hr]
      | true => simp [hr]
  · intro n cfg
    exact health_cycle_single_count st n cfg env lo

/-- Claim C2, counterexample: service beta has `max_restarts = some 2` and
`restartCount = 2` (ceiling reached), yet one unhealthy health-check cycle
still attempts a restart and pushes the count to 3 — the count does not stay
at the ceiling and the service is not left alone. -/
theorem C2_counterexample :
    cfgBeta.max_restarts = some 2 ∧
    getCount stBeta "beta" = 2 ∧
    getCount (health_cycle stBeta [("beta", cfgBeta)] envDown loOk) "beta" =
      3 := by
  refine ⟨rfl, by decide, ?_⟩
  decide

/-- Claim C2 as amended: `max_restarts` is never consulted — even when a
finite ceiling `m` is already reached (`m ≤ restartCount`), an unhealthy
health-check cycle still attempts a restart and the count keeps growing by
one past the ceiling. -/
theorem C2_no_restart_ceiling (st : SystemState) (n : String)
    (cfg : ServiceConfig) (env : String → ProbeEnv)
    (lo : String → LaunchOutcome) (m : Nat)
    (hm : cfg.max_restarts = some m) (hge : m ≤ getCount st n)
    (hr : cfg.restart_on_failure = true)
    (hu : classifyProbe (env n) = false) :
    getCount (health_cycle st [(n, cfg)] env lo) n = getCount st n + 1 := by
  rw [health_cycle_single_count, hr, hu]
  simp

/-- Claim C2 witness: the amended statement instantiated at service beta
sitting exactly at its ceiling of 2. -/
theorem C2_witness :
    cfgBeta.max_restarts = some 2 ∧ 2 ≤ getCount stBeta "beta" ∧
    cfgBeta.restart_on_failure = true ∧
    classifyProbe (envDown "beta") = false ∧
    getCount (health_cycle stBeta [("beta", cfgBeta)] envDown loOk) "beta" =
      getCount stBeta "beta" + 1 :=
  ⟨rfl, by decide, rfl, rfl,
    C2_no_restart_ceiling stBeta "beta" cfgBeta envDown loOk 2 rfl (by decide)
      rfl rfl⟩

/-- Claim C3, counterexample: a service answering HTTP 404 on both probe URLs
is classified NOT healthy (the 404 fallback is reachable only when the
`/health` request raises, and a 404 response is not a raise), and one
health-check cycle then triggers a restart of it. -/
theorem C3_counterexample :
    (check_service_health st0 "gamma" cfgGamma (env404 "gamma")).healthy =
      false ∧
    getCount (health_cycle st0 [("gamma", cfgGamma)] env404 loOk) "gamma" =
      1 := by
  refine ⟨rfl, ?_⟩
  decide

/-- Claim C3 as amended: a probe is classified healthy iff `/health` answers
200, or the `/health` request raises (refused/reset/timeout) and the fallback
`/` answers 200 or 404.  Any HTTP response on `/health` other than 200 —
404 included — is classified unhealthy, and both refused connections and
timeouts end up in the same single not-healthy classification. -/
theorem C3_probe_classification (st : SystemState) (n : String)
    (cfg : ServiceConfig) (env : ProbeEnv) :
    (check_service_health st n cfg env).healthy = true ↔
      (env.healthResp = HttpResult.success 200 ∨
        (env.healthResp.raises = true ∧
          (env.rootResp = HttpResult.success 200 ∨
            env.rootResp = HttpResult.success 404))) := by
  rw [check_health_healthy]
  obtain ⟨hr, rr⟩ := env
  cases hr with
  | success s =>
    by_cases hs : s = 200 <;>
      simp [classifyProbe, HttpResult.raises, hs]
  | connRefused =>
    cases rr with
    | success t =>
      by_cases ht : t = 200 ∨ t = 404 <;>
        simp [classifyProbe, HttpResult.raises, ht]
    | connRefused => simp [classifyProbe, HttpResult.raises]
    | timedOut => simp [classifyProbe, HttpResult.raises]
  | timedOut =>
    cases rr with
    | success t =>
      by_cases ht : t = 200 ∨ t = 404 <;>
        simp [classifyProbe, HttpResult.raises, ht]
    | connRefused => simp [classifyProbe, HttpResult.raises]
    | timedOut => simp [classifyProbe, HttpResult.raises]

/-- Claim C4, confirmed: stopping a service with no stored handle (never
started or already stopped) is a no-op returning success, and no
`stop_service` call ever changes `restart_counts`. -/
theorem C4_stop_idempotent (st : SystemState) (n : String) :
    (lookupKey n st.processes = none → stop_service st n = (st, true)) ∧
    (stop_service st n).2 = true ∧
    ((stop_service st n).1).restart_counts = st.restart_counts := by
  refine ⟨fun h => ?_, ?_, stop_service_counts st n⟩
  · unfold stop_service
    rw [h]
  · unfold stop_service
    cases lookupKey n st.processes with
    | none => rfl
    | some pid => rfl

/-- Claim C4 witness: the no-op result on a fresh state with no handles. -/
theorem C4_witness :
    lookupKey "web" st0.processes = none ∧
    stop_service st0 "web" = (st0, true) ∧
    ((stop_service st0 "web").1).restart_counts = st0.restart_counts :=
  ⟨rfl, (C4_stop_idempotent st0 "web").1 rfl, (C4_stop_idempotent st0 "web").2.2⟩

/-- Claim C5, confirmed: `restart_service` increments the service's count by
exactly one whether or not the start succeeds, and every supervisor operation
— restart, stop, start, a whole health-check cycle, a whole auto-patch cycle,
and the shutdown sequence — leaves every service's restart count
non-decreasing (stop/start/shutdown leave it exactly unchanged). -/
theorem C5_restart_counts_monotone :
    (∀ (st : SystemState) (n : String) (lo : LaunchOutcome),
      getCount ((restart_service st n lo).1) n = getCount st n + 1) ∧
    (∀ (st : SystemState) (n m : String) (lo : LaunchOutcome),
      getCount st m ≤ getCount ((restart_service st n lo).1) m) ∧
    (∀ (st : SystemState) (n m : String),
      getCount ((stop_service st n).1) m = getCount st m) ∧
    (∀ (st : SystemState) (n m : String) (lo : LaunchOutcome),
      getCount ((start_service st n lo).1) m = getCount st m) ∧
    (∀ (st : SystemState) (services : List (String × ServiceConfig))
      (env : String → ProbeEnv) (lo : String → LaunchOutcome) (m : String),
      getCount st m ≤ getCount (health_cycle st services env lo) m) ∧
    (∀ (st : SystemState) (services : List (String × ServiceConfig))
      (env : String → ProbeEnv) (lo : String → LaunchOutcome) (m : String),
      getCount st m ≤ getCount (auto_patch_system st services env lo) m) ∧
    (∀ (st : SystemState) (m : String),
      getCount (shutdown_all st) m = getCount st m) := by
  refine ⟨restart_service_getCount_self,
    fun st n m lo => restart_service_getCount_mono st n lo m,
    fun st n m => ?_, fun st n m lo => ?_,
    fun st services env lo m =>
      foldl_getCount_mono _ m (health_cycle_step_getCount_mono st env lo m)
        services st,
    fun st services env lo m =>
      foldl_getCount_mono _ m (auto_patch_step_getCount_mono env lo m)
        services st,
    fun st m => ?_⟩
  · unfold getCount
    rw [stop_service_counts]
  · unfold getCount
    rw [start_service_counts]
  · unfold getCount shutdown_all
    rw [foldl_stop_counts]

/-- Claim C6, counterexample: the OS accepts the launch (a process is created
and its handle stored), the process exits during the 3-second verification
wait, and `start_service` returns failure anyway — refuting that failure is
returned only when the OS cannot create the process. -/
theorem C6_counterexample :
    (start_service st0 "svc6" (LaunchOutcome.launched 7 false false)).2 =
      false ∧
    lookupKey "svc6"
      (((start_service st0 "svc6" (LaunchOutcome.launched 7 false false)).1).processes) = some 7 := by
  refine ⟨rfl, ?_⟩
  decide

/-- Claim C6 as amended: `start_service` waits about 3 seconds after the
launch and returns success iff the OS created the process AND the process is
still alive at the end of that wait; it returns failure both when `Popen`
raises and when the created process exits during the wait (it still does not
wait for the service to become ready — no probe is involved). -/
theorem C6_start_result (st : SystemState) (n : String) (lo : LaunchOutcome) :
    (start_service st n lo).2 = true ↔
      ∃ pid ignT, lo = LaunchOutcome.launched pid true ignT := by
  cases lo with
  | popenFails => simp [start_service]
  | launched pid a ignT =>
    cases a with
    | true =>
      simp only [start_service]
      exact ⟨fun _ => ⟨pid, ignT, rfl⟩, fun _ => trivial⟩
    | false => simp [start_service]

/-- Claim C7, counterexample: after `start_service` launches a process that
exits during the verification wait, the operation has just observed the
process dead (it returns False), yet the dead process's handle stays stored —
refuting `processHandle` present ⇔ process last observed alive. -/
theorem C7_counterexample :
    lookupKey "svc7"
      (((start_service st0 "svc7" (LaunchOutcome.launched 7 false false)).1).processes) = some 7 ∧
    isAlive ((start_service st0 "svc7"
      (LaunchOutcome.launched 7 false false)).1) 7 = false ∧
    (start_service st0 "svc7" (LaunchOutcome.launched 7 false false)).2 =
      false := by
  refine ⟨?_, ?_, rfl⟩ <;> decide

/-- Claim C7 as amended: dead process handles CAN remain stored
(`start_service` stores the handle before its liveness check and keeps it on
failure); the invariant is restored only by `auto_patch_system`'s sweep:
after an auto-patch cycle every stored handle's process polls alive. -/
theorem C7_sweep_restores_invariant (st : SystemState)
    (services : List (String × ServiceConfig)) (env : String → ProbeEnv)
    (lo : String → LaunchOutcome) (n : String) (pid : Nat)
    (h : (n, pid) ∈ (auto_patch_system st services env lo).processes) :
    isAlive (auto_patch_system st services env lo) pid = true := by
  unfold auto_patch_system at h ⊢
  exact (List.mem_filter.mp h).2

/-- Claim C7 witness: a live stored handle survives the sweep and indeed
polls alive afterwards. -/
theorem C7_witness :
    ("web", 5) ∈ (auto_patch_system stLive [] envDown loOk).processes ∧
    isAlive (auto_patch_system stLive [] envDown loOk) 5 = true :=
  ⟨by decide,
    C7_sweep_restores_invariant stLive [] envDown loOk "web" 5 (by decide)⟩

/-- Claim C8, confirmed: a caught in-tick exception (with no shutdown signal)
leaves the loop running, and whenever the persistent loop's flag has gone
false over any trace of tick events, some event was a `KeyboardInterrupt` or
carried the external shutdown signal — per-cycle errors alone never
terminate the loop. -/
theorem C8_loop_survives_errors :
    (∀ e : TickOutcome × Bool, e.1 = TickOutcome.exc → e.2 = false →
      tick_step true e = true) ∧
    (∀ evs : List (TickOutcome × Bool), run_loop true evs = false →
      ∃ e ∈ evs, e.1 = TickOutcome.keyboardInterrupt ∨ e.2 = true) := by
  constructor
  · intro e h1 h2
    simp [tick_step, h1, h2]
  · intro evs h
    rcases foldl_tick_false evs true h with h1 | h2
    · exact Bool.noConfusion h1
    · exact h2

/-- Claim C8 witness: an exception tick leaves the loop running, and a trace
that did stop the loop contains its `KeyboardInterrupt`. -/
theorem C8_witness :
    tick_step true (TickOutcome.exc, false) = true ∧
    (∃ e ∈ [(TickOutcome.exc, false), (TickOutcome.keyboardInterrupt, false)],
      e.1 = TickOutcome.keyboardInterrupt ∨ e.2 = true) :=
  ⟨C8_loop_survives_errors.1 (TickOutcome.exc, false) rfl rfl,
    C8_loop_survives_errors.2
      [(TickOutcome.exc, false), (TickOutcome.keyboardInterrupt, false)]
      (by decide)⟩

/-- Claim C9, confirmed: the shutdown sequence stops every stored handle;
afterwards the handle map is empty and the process of every service that had
a stored handle is not alive. -/
theorem C9_shutdown_total (st : SystemState) (n : String) (pid : Nat)
    (h : lookupKey n st.processes = some pid) :
    (shutdown_all st).processes = [] ∧
    isAlive (shutdown_all st) pid = false := by
  constructor
  · exact foldl_stop_processes _ st
      (fun q hq => List.mem_map_of_mem Prod.fst hq)
  · exact foldl_stop_kills _ st n pid
      (lookupKey_some_mem_keys n pid st.processes h) h

/-- Claim C9 witness: shutdown of a state with one live managed process
leaves no handle and a dead process. -/
theorem C9_witness :
    lookupKey "web" stLive.processes = some 5 ∧
    (shutdown_all stLive).processes = [] ∧
    isAlive (shutdown_all stLive) 5 = false :=
  ⟨rfl, (C9_shutdown_total stLive "web" 5 rfl).1,
    (C9_shutdown_total stLive "web" 5 rfl).2⟩

/-- Claim C10, confirmed: the `healthy` classification — and with it the
health-cycle reaction built from it — depends only on the HTTP responses:
two supervisor states that differ arbitrarily in stored handles, OS process
table and restart counts classify identically under the same responses, and
the health-check cycle's per-service reaction is the same function of the
accumulator under both. -/
theorem C10_health_independent_of_state (st1 st2 : SystemState) (n : String)
    (cfg : ServiceConfig) (env : ProbeEnv) :
    ((check_service_health st1 n cfg env).healthy =
      (check_service_health st2 n cfg env).healthy) ∧
    (∀ (acc : SystemState) (envF : String → ProbeEnv)
      (lo : String → LaunchOutcome) (p : String × ServiceConfig),
      health_cycle_step st1 envF lo acc p =
        health_cycle_step st2 envF lo acc p) := by
  constructor
  · rw [check_health_healthy, check_health_healthy]
  · intro acc envF lo p
    unfold health_cycle_step
    simp only [check_health_healthy]

end Valifi
